import Mathlib

/-!
Shallow embedding of the Camera Roll Cleaner application
(src/image_sorter.py, class ImageSorterApp) and proofs about it.

The application keeps three mutable navigation fields (`folder_path`,
`image_files`, `current_index`); every state-changing method is embedded
here as a pure function on an explicit `AppState`, with filesystem and UI
interactions returned as an explicit list of effects.  External outcomes
(directory listings, user confirmation, success of `os.remove`, results
of the ffmpeg audio extraction, frame reads in the playback loop) are
passed in as parameters, so the functions below are the exact decision
logic of the Python source evaluated over those outcomes.
-/

namespace CameraRollCleaner

/-- Observable side effects performed by the application's methods:
dialogs, log prints, filesystem mutations, and the playback-session
actions of `play_video` (lines 397-471 of image_sorter.py). -/
inductive Eff where
  /-- `show_message` with the folder-not-found error text (line 199). -/
  | showError : Eff
  /-- `messagebox.showinfo("No Files Found", ...)` (line 203). -/
  | showInfoNoFiles : Eff
  /-- `show_message(...)` informational text in the image area. -/
  | showMessage : Eff
  /-- a call to `display_image()` (renders the current entry). -/
  | displayImage : Eff
  /-- `save_last_folder(p)`: persist `p` as the last used directory (line 209). -/
  | saveLastFolder (p : String) : Eff
  /-- `messagebox.showwarning("No File", ...)` guard dialog. -/
  | warnNoFile : Eff
  /-- `messagebox.showerror(...)` for a failed delete or favorite toggle. -/
  | errorBox : Eff
  /-- `os.remove(p)` (delete a file from the filesystem). -/
  | removeFile (p : String) : Eff
  /-- `shutil.copy2(src, dst)` (copy a file with metadata). -/
  | copyFile (src dst : String) : Eff
  /-- `os.makedirs(p, exist_ok=True)`. -/
  | makeDirs (p : String) : Eff
  /-- a `print(...)` log line. -/
  | printLog : Eff
  /-- `cv2.namedWindow(...)` (line 410). -/
  | namedWindow : Eff
  /-- `cv2.resizeWindow(..., 1280, 720)` (line 412). -/
  | resizeWindow : Eff
  /-- `pygame.mixer.init()` (line 417). -/
  | mixerInit : Eff
  /-- creation of the temporary `.wav` file (lines 420-422). -/
  | createTemp : Eff
  /-- the `subprocess.run(["ffmpeg", ...])` invocation (line 425). -/
  | runFfmpeg : Eff
  /-- `pygame.mixer.music.load(audio_path)` (line 434). -/
  | musicLoad : Eff
  /-- `pygame.mixer.music.play()` (line 435): audio playback starts. -/
  | musicPlay : Eff
  /-- `cv2.imshow(window_name, frame)` (line 447): one frame presented. -/
  | imshow : Eff
  /-- `cap.release()` (line 455): the decoder is released. -/
  | capRelease : Eff
  /-- `cv2.destroyWindow(window_name)` (line 456): the viewer is closed. -/
  | destroyWindow : Eff
  /-- `pygame.mixer.music.stop()` (line 460): audio playback stops. -/
  | musicStop : Eff
  /-- `pygame.mixer.quit()` (line 461). -/
  | mixerQuit : Eff
  /-- `os.unlink(audio_path)` (line 466): the temporary audio file is deleted. -/
  | unlinkTemp : Eff
  /-- a `print("Warning: ...")` line for a failed audio load (line 438). -/
  | printWarn : Eff
  /-- `messagebox.showerror("Playback Error", ...)` (lines 400 and 471). -/
  | msgboxPlaybackError : Eff
deriving DecidableEq, Repr

/-- Mutable navigation state of `ImageSorterApp`: the fields assigned in
`__init__` (lines 46-48) and mutated by the load/next/previous/delete
operations. -/
structure AppState where
  folder_path : String
  image_files : List String
  current_index : Int
deriving DecidableEq, Repr

/-- `supported_extensions` tuple of `load_images_from_path`
(image_sorter.py line 191). -/
def supported_extensions : List String :=
  [".png", ".jpg", ".jpeg", ".gif", ".bmp", ".heic", ".mov"]

/-- Python's `str.lower()`: lowercase every character.  Stated over the
character list of the string so that it evaluates by structural
recursion. -/
def lowerStr (s : String) : String := String.mk (s.data.map Char.toLower)

/-- Python's `str.endswith(post)`: the character sequence of `post` is a
suffix of that of `s`. -/
def endsWithStr (s post : String) : Bool := List.isSuffixOf post.data s.data

/-- the filter predicate `f.lower().endswith(supported_extensions)`
(image_sorter.py line 196): the lowercased name ends with one of the
supported extensions. -/
def isSupported (f : String) : Bool :=
  supported_extensions.any (fun ext => endsWithStr (lowerStr f) ext)

/-- the catalog construction of `load_images_from_path` (lines 194-197):
`sorted([f for f in os.listdir(path) if f.lower().endswith(...)])`,
applied to the directory listing.  Python's `sorted` is a stable sort by
the default ascending string order; since equal keys are equal strings,
any sorting algorithm over `String`'s linear order yields the same list,
so we embed it with `List.insertionSort`. -/
def scan (listing : List String) : List String :=
  List.insertionSort (fun a b => a ≤ b) (listing.filter isSupported)

/-- `os.path.join(a, b)` for a directory `a` (no trailing separator) and a
relative name `b`. -/
def path_join (a b : String) : String := a ++ "/" ++ b

/-- `load_images_from_path(self, path)` (image_sorter.py lines 188-209).
The outcome of `os.listdir(path)` is passed in as `listing`: `some L` when
the listing succeeds with entries `L`, `none` when it raises
`FileNotFoundError`.  Note the source assigns `self.folder_path = path`
on line 190, before the `try` block around the listing. -/
def load_images_from_path (s : AppState) (path : String)
    (listing : Option (List String)) : AppState × List Eff :=
  let s1 : AppState := { s with folder_path := path }
  match listing with
  | none => (s1, [Eff.showError])
  | some L =>
    let files := scan L
    if files.isEmpty then
      ({ s1 with image_files := files, current_index := -1 },
       [Eff.showInfoNoFiles, Eff.showMessage])
    else
      ({ s1 with image_files := files, current_index := 0 },
       [Eff.displayImage, Eff.saveLastFolder path])

/-- `show_next_image(self, event=None)` (lines 374-378): advance the cursor
when the list is non-empty and the cursor is below the last index;
otherwise do nothing.  `display_image` only renders, so the navigation
effect is captured by the state alone. -/
def show_next_image (s : AppState) : AppState :=
  if s.image_files ≠ [] ∧ s.current_index < (s.image_files.length : Int) - 1 then
    { s with current_index := s.current_index + 1 }
  else s

/-- `show_prev_image(self, event=None)` (lines 380-384). -/
def show_prev_image (s : AppState) : AppState :=
  if s.image_files ≠ [] ∧ s.current_index > 0 then
    { s with current_index := s.current_index - 1 }
  else s

/-- `delete_current_image(self, event=None)` (lines 545-572).  `is_sure`
is the user's answer to the confirmation dialog; `remove_ok` tells
whether `os.remove` succeeds (when it raises, the `except` branch shows
an error box and the list and cursor are left untouched). -/
def delete_current_image (s : AppState) (is_sure remove_ok : Bool) :
    AppState × List Eff :=
  if s.current_index = -1 ∨ s.image_files = [] then
    (s, [Eff.warnNoFile])
  else
    let filename := s.image_files.getD s.current_index.toNat ""
    let image_path := path_join s.folder_path filename
    if ¬ is_sure then (s, [])
    else if ¬ remove_ok then (s, [Eff.errorBox])
    else
      let files := s.image_files.eraseIdx s.current_index.toNat
      let idx :=
        if (files.length : Int) ≤ s.current_index ∧ files ≠ [] then
          s.current_index - 1
        else s.current_index
      ({ s with image_files := files, current_index := idx },
       [Eff.removeFile image_path, Eff.printLog] ++
         (if files ≠ [] then [Eff.displayImage] else [Eff.showMessage]))

/-- a model of filesystem file existence: `fs p = true` iff a file exists
at path `p`. -/
abbrev FS := String → Bool

/-- `is_favorited(self, filename)` (lines 473-477): true iff
`folder_path/favorites/filename` exists. -/
def is_favorited (fs : FS) (folder filename : String) : Bool :=
  fs (path_join (path_join folder "favorites") filename)

/-- `add_to_favorites(self, event=None)` (lines 479-510): toggle the
current file in or out of the `favorites` subfolder.  Returns the updated
filesystem (the copy or delete is assumed to succeed; the `except` branch
of the source only reports errors) together with the effects performed. -/
def add_to_favorites (fs : FS) (s : AppState) : FS × List Eff :=
  if s.current_index = -1 ∨ s.image_files = [] then
    (fs, [Eff.warnNoFile])
  else
    let filename := s.image_files.getD s.current_index.toNat ""
    let source_path := path_join s.folder_path filename
    let favorites_folder := path_join s.folder_path "favorites"
    let destination_path := path_join favorites_folder filename
    if is_favorited fs s.folder_path filename then
      (fun q => if q = destination_path then false else fs q,
       [Eff.removeFile destination_path, Eff.printLog])
    else
      (fun q => if q = destination_path then true else fs q,
       [Eff.makeDirs favorites_folder,
        Eff.copyFile source_path destination_path, Eff.printLog])

/-- Outcome of the audio-setup block of `play_video` (lines 414-439),
which is wrapped in its own `try/except`. -/
inductive AudioOutcome where
  /-- `pygame.mixer.init()` raises: the inner `except` sets
  `has_audio = False` and no temporary file was created. -/
  | initRaises : AudioOutcome
  /-- the temporary file was created but `subprocess.run` raises (for
  example ffmpeg is not installed): caught, `has_audio = False`. -/
  | extractRaises : AudioOutcome
  /-- ffmpeg ran and returned exit code `rc`; `ex` is the result of
  `os.path.exists(audio_path)` and `size` that of
  `os.path.getsize(audio_path)` on line 432. -/
  | extracted (rc : Int) (ex : Bool) (size : Nat) : AudioOutcome
deriving DecidableEq, Repr

/-- Outcome of one iteration of the frame loop (lines 442-452). -/
inductive FrameStep where
  /-- `cap.read()` returned `ret = False`: end of stream, break. -/
  | readFail : FrameStep
  /-- a frame was read and shown; `key` is the raw `cv2.waitKey` value and
  `visible` whether the window property `WND_PROP_VISIBLE` is at least 1.
  The loop breaks after showing the frame when `key & 0xFF == ord("q")`
  or the window is no longer visible. -/
  | frame (key : Nat) (visible : Bool) : FrameStep
  /-- an exception is raised inside the loop body (for example by
  `cv2.imshow` on a corrupt frame): control jumps to the outer `except`
  handler on line 470. -/
  | raises : FrameStep
deriving DecidableEq, Repr

/-- Environment of one `play_video` session after the capture opened:
the audio-setup outcome, whether `os.path.exists(audio_path)` still holds
at the cleanup check on line 464, and the sequence of frame-loop
iteration outcomes (an exhausted list behaves like end of stream). -/
structure PlayEnv where
  audioOutcome : AudioOutcome
  tempExistsAtCleanup : Bool
  frames : List FrameStep
deriving DecidableEq, Repr

/-- `has_audio` computed on line 432:
`result.returncode == 0 and os.path.exists(audio_path) and os.path.getsize(audio_path) > 0`;
`False` whenever the audio block raised. -/
def hasAudio : AudioOutcome → Bool
  | AudioOutcome.initRaises => false
  | AudioOutcome.extractRaises => false
  | AudioOutcome.extracted rc ex size => rc == 0 && ex && size != 0

/-- whether `audio_temp_file` is non-`None` after the audio block
(lines 415-422): the temporary file object is created unless
`pygame.mixer.init()` itself raised. -/
def tempCreated : AudioOutcome → Bool
  | AudioOutcome.initRaises => false
  | AudioOutcome.extractRaises => true
  | AudioOutcome.extracted _ _ _ => true

/-- effects of the audio-setup block (lines 414-439). -/
def audioPhase : AudioOutcome → List Eff
  | AudioOutcome.initRaises => [Eff.printWarn]
  | AudioOutcome.extractRaises =>
      [Eff.mixerInit, Eff.createTemp, Eff.runFfmpeg, Eff.printWarn]
  | AudioOutcome.extracted rc ex size =>
      [Eff.mixerInit, Eff.createTemp, Eff.runFfmpeg] ++
        (if hasAudio (AudioOutcome.extracted rc ex size) then
          [Eff.musicLoad, Eff.musicPlay]
        else [])

/-- the frame loop (lines 442-452): effects performed, paired with
whether an exception escaped the loop body. -/
def runLoop : List FrameStep → List Eff × Bool
  | [] => ([], false)
  | FrameStep.readFail :: _ => ([], false)
  | FrameStep.raises :: _ => ([], true)
  | FrameStep.frame key visible :: rest =>
      if key % 256 = 113 ∨ visible = false then ([Eff.imshow], false)
      else
        let r := runLoop rest
        (Eff.imshow :: r.1, r.2)

/-- the `play_video` session body after `cap.isOpened()` succeeded
(lines 404-471): window setup, audio setup, frame loop, then — only when
no exception escaped the loop — the straight-line cleanup of lines
454-468.  An exception inside the loop is caught by the outer `except`
on line 470, which shows an error dialog and returns. -/
def play_video_session (env : PlayEnv) : List Eff :=
  let a := audioPhase env.audioOutcome
  let l := runLoop env.frames
  let pre := [Eff.namedWindow, Eff.resizeWindow] ++ a ++ l.1
  if l.2 then pre ++ [Eff.msgboxPlaybackError]
  else
    pre ++ [Eff.capRelease, Eff.destroyWindow] ++
      (if hasAudio env.audioOutcome then [Eff.musicStop, Eff.mixerQuit] else []) ++
      (if tempCreated env.audioOutcome && env.tempExistsAtCleanup then
        [Eff.unlinkTemp]
      else [])

/-- `play_video(self, event=None)` (lines 386-471) including its guards:
return silently when there is no current entry or the entry is not a
`.mov` file; show a playback error when the capture cannot be opened
(`capOpened = false`); otherwise run the session. -/
def play_video (s : AppState) (capOpened : Bool) (env : PlayEnv) : List Eff :=
  if s.current_index = -1 ∨ s.image_files = [] then []
  else
    let filename := s.image_files.getD s.current_index.toNat ""
    if ¬ filename.toLower.endsWith ".mov" then []
    else if ¬ capOpened then [Eff.msgboxPlaybackError]
    else play_video_session env

end CameraRollCleaner

namespace CameraRollCleaner

/-- Claim C1 helper: `scan` produces a sorted list. -/
theorem scan_sorted (L : List String) : (scan L).Sorted (fun a b => a ≤ b) :=
  List.sorted_insertionSort _ _

/-- Claim C1 helper: `scan` is a permutation of the filtered listing. -/
theorem scan_perm (L : List String) : (scan L).Perm (L.filter isSupported) :=
  List.perm_insertionSort _ _

/-- Claim C1 helper: membership in `scan L`. -/
theorem mem_scan (L : List String) (f : String) :
    f ∈ scan L ↔ f ∈ L ∧ isSupported f = true := by
  rw [(scan_perm L).mem_iff, List.mem_filter]

/-- C1: for a readable directory whose listing is `L`, the catalog built by
`load_images_from_path` (image_sorter.py lines 194-197) is exactly the
children of `L` whose names end case-insensitively with one of the
supported extensions, sorted by name ascending, and re-running `scan` on
the unchanged result is idempotent. -/
theorem c1_scan_exact_sorted_idempotent (L : List String) :
    (scan L).Sorted (fun a b => a ≤ b) ∧
    (scan L).Perm (L.filter isSupported) ∧
    (∀ f, f ∈ scan L ↔ f ∈ L ∧ isSupported f = true) ∧
    scan (scan L) = scan L := by
  refine ⟨scan_sorted L, scan_perm L, mem_scan L, ?_⟩
  have hfilter : (scan L).filter isSupported = scan L :=
    List.filter_eq_self.mpr (fun f hf => ((mem_scan L f).mp hf).2)
  show List.insertionSort _ ((scan L).filter isSupported) = scan L
  rw [hfilter]
  exact (scan_sorted L).insertionSort_eq

/-- the NavigatorState invariant exactly as claim C2 states it: a
non-empty list has a cursor in range, an empty list has the sentinel
`current_index = -1`. -/
def ClaimedNavInv (s : AppState) : Prop :=
  (s.image_files ≠ [] →
     0 ≤ s.current_index ∧ s.current_index < (s.image_files.length : Int)) ∧
  (s.image_files = [] → s.current_index = -1)

instance (s : AppState) : Decidable (ClaimedNavInv s) := by
  unfold ClaimedNavInv; infer_instance

/-- the invariant the code actually maintains: when the list is empty the
cursor is either the `-1` sentinel (initial state, empty load) or the
stale value `0` left behind by `delete_current_image` after removing the
final entry (lines 563-565 never reset it to `-1`). -/
def NavInv (s : AppState) : Prop :=
  (s.image_files ≠ [] →
     0 ≤ s.current_index ∧ s.current_index < (s.image_files.length : Int)) ∧
  (s.image_files = [] → s.current_index = -1 ∨ s.current_index = 0)

instance (s : AppState) : Decidable (NavInv s) := by
  unfold NavInv; infer_instance

/-- helper: `show_next_image` never changes the entries list. -/
theorem show_next_image_files (s : AppState) :
    (show_next_image s).image_files = s.image_files := by
  unfold show_next_image; split <;> rfl

/-- helper: `show_prev_image` never changes the entries list. -/
theorem show_prev_image_files (s : AppState) :
    (show_prev_image s).image_files = s.image_files := by
  unfold show_prev_image; split <;> rfl

/-- C2 counterexample: the run of `delete_current_image` that removes the
only entry of a 1-entry catalog leaves `current_index = 0`, not the `-1`
sentinel — the invariant as claimed is broken by the delete operation. -/
theorem c2_counterexample :
    ClaimedNavInv (AppState.mk "d" ["a.jpg"] 0) ∧
    ¬ ClaimedNavInv (delete_current_image (AppState.mk "d" ["a.jpg"] 0) true true).1 ∧
    (delete_current_image (AppState.mk "d" ["a.jpg"] 0) true true).1.image_files = [] ∧
    (delete_current_image (AppState.mk "d" ["a.jpg"] 0) true true).1.current_index = 0 := by
  decide

/-- C2 amended: every operation (load, next, previous, delete) preserves
the invariant that a non-empty list has `0 ≤ cursor < len`, and an empty
list has cursor `-1` or the stale `0` left by a delete that emptied the
catalog. -/
theorem c2_nav_invariant_preserved (s : AppState) (path : String)
    (listing : Option (List String)) (is_sure remove_ok : Bool)
    (h : NavInv s) :
    NavInv (load_images_from_path s path listing).1 ∧
    NavInv (show_next_image s) ∧
    NavInv (show_prev_image s) ∧
    NavInv (delete_current_image s is_sure remove_ok).1 := by
  obtain ⟨hpos, hemp⟩ := h
  refine ⟨?_, ?_, ?_, ?_⟩
  · unfold load_images_from_path
    match listing with
    | none => exact ⟨hpos, hemp⟩
    | some L =>
      simp only
      split
      · rename_i hL
        constructor
        · intro hne
          exact absurd (List.isEmpty_iff.mp hL) hne
        · intro _; exact Or.inl rfl
      · rename_i hL
        have hne2 : scan L ≠ [] := fun hnil => hL (by simp [hnil])
        have hlp : 0 < (scan L).length := List.length_pos.mpr hne2
        constructor
        · intro _
          constructor
          · show (0 : Int) ≤ 0
            exact le_refl 0
          · show (0 : Int) < ((scan L).length : Int)
            exact_mod_cast hlp
        · intro habs
          exact absurd habs hne2
  · unfold show_next_image
    split
    · rename_i hc
      obtain ⟨hne, hlt⟩ := hc
      have := hpos hne
      constructor
      · intro _; simp only; omega
      · intro habs; exact absurd habs hne
    · exact ⟨hpos, hemp⟩
  · unfold show_prev_image
    split
    · rename_i hc
      obtain ⟨hne, hgt⟩ := hc
      have := hpos hne
      constructor
      · intro _; simp only; omega
      · intro habs; exact absurd habs hne
    · exact ⟨hpos, hemp⟩
  · unfold delete_current_image
    split
    · exact ⟨hpos, hemp⟩
    · rename_i hg
      push_neg at hg
      obtain ⟨hneg1, hne⟩ := hg
      obtain ⟨h0, h1⟩ := hpos hne
      simp only
      split
      · exact ⟨hpos, hemp⟩
      · split
        · exact ⟨hpos, hemp⟩
        · have htn : s.current_index.toNat < s.image_files.length := by omega
          have hlen :
              (s.image_files.eraseIdx s.current_index.toNat).length =
                s.image_files.length - 1 :=
            List.length_eraseIdx_of_lt htn
          constructor
          · intro hne2
            simp only at hne2 ⊢
            have hlp : 0 < (s.image_files.eraseIdx s.current_index.toNat).length :=
              List.length_pos.mpr hne2
            split
            · rename_i hcond
              omega
            · rename_i hcond
              rw [not_and_or] at hcond
              rcases hcond with hcond | hcond
              · omega
              · exact absurd hne2 (by simpa using hcond)
          · intro hnil
            simp only at hnil ⊢
            have hl0 : (s.image_files.eraseIdx s.current_index.toNat).length = 0 := by
              rw [hnil]; rfl
            split
            · rename_i hcond
              exact absurd hnil (by simpa using hcond.2)
            · right; omega

/-- helper: on a non-empty list with an in-range cursor, `n` applications
of `show_next_image` put the cursor at `min (cursor + n) (len - 1)`. -/
theorem show_next_image_iterate (n : Nat) (s : AppState) (h : s.image_files ≠ [])
    (h0 : 0 ≤ s.current_index)
    (h1 : s.current_index < (s.image_files.length : Int)) :
    (show_next_image^[n] s).current_index =
      min (s.current_index + n) ((s.image_files.length : Int) - 1) := by
  induction n generalizing s with
  | zero =>
    simp only [Function.iterate_zero, id_eq]
    have hlp : 0 < s.image_files.length := List.length_pos.mpr h
    omega
  | succ n ih =>
    rw [Function.iterate_succ_apply]
    by_cases hc : s.current_index < (s.image_files.length : Int) - 1
    · have hstep : show_next_image s = { s with current_index := s.current_index + 1 } := by
        unfold show_next_image
        rw [if_pos ⟨h, hc⟩]
      rw [hstep]
      rw [ih { s with current_index := s.current_index + 1 } h
        (by dsimp only; omega) (by dsimp only; omega)]
      dsimp only
      omega
    · have hstep : show_next_image s = s := by
        unfold show_next_image
        rw [if_neg]
        intro hab
        exact hc hab.2
      rw [hstep, ih s h h0 h1]
      omega

/-- C3: in a `Positioned` state, `show_next_image` increments the cursor
below the last index and is a no-op at the last index, `show_prev_image`
decrements above 0 and is a no-op at 0, and applying `show_next_image`
`len` times from cursor 0 ends at `len - 1` (no wraparound). -/
theorem c3_next_prev_clamp_no_wrap (s : AppState) (h : s.image_files ≠ [])
    (h0 : 0 ≤ s.current_index)
    (h1 : s.current_index < (s.image_files.length : Int)) :
    (s.current_index < (s.image_files.length : Int) - 1 →
       (show_next_image s).current_index = s.current_index + 1) ∧
    (s.current_index = (s.image_files.length : Int) - 1 →
       show_next_image s = s) ∧
    (0 < s.current_index →
       (show_prev_image s).current_index = s.current_index - 1) ∧
    (s.current_index = 0 → show_prev_image s = s) ∧
    (show_next_image^[s.image_files.length]
        { s with current_index := 0 }).current_index =
      (s.image_files.length : Int) - 1 := by
  have hlp : 0 < s.image_files.length := List.length_pos.mpr h
  refine ⟨?_, ?_, ?_, ?_, ?_⟩
  · intro hlt
    unfold show_next_image
    rw [if_pos ⟨h, hlt⟩]
  · intro heq
    unfold show_next_image
    rw [if_neg]
    intro hab
    omega
  · intro hgt
    unfold show_prev_image
    rw [if_pos ⟨h, hgt⟩]
  · intro heq
    unfold show_prev_image
    rw [if_neg]
    intro hab
    omega
  · rw [show_next_image_iterate s.image_files.length
      { s with current_index := 0 } h (le_refl 0)
      (by dsimp only; exact_mod_cast hlp)]
    dsimp only
    omega

/-- C4: in a `Positioned` state, the confirmed, successful
`delete_current_image` removes `entries[cursor]`; the list becomes empty
exactly when it had one entry; when the removed index was the last one
and entries remain, the cursor is decremented; otherwise the cursor is
unchanged and now refers to the entry that slid into the vacated slot
(the former entry at `cursor + 1`). -/
theorem c4_delete_renormalizes (s : AppState) (h : s.image_files ≠ [])
    (h0 : 0 ≤ s.current_index)
    (h1 : s.current_index < (s.image_files.length : Int)) :
    (delete_current_image s true true).1.image_files =
      s.image_files.eraseIdx s.current_index.toNat ∧
    ((delete_current_image s true true).1.image_files = [] ↔
      s.image_files.length = 1) ∧
    (s.current_index = (s.image_files.length : Int) - 1 ∧ 1 < s.image_files.length →
      (delete_current_image s true true).1.current_index = s.current_index - 1) ∧
    (s.current_index < (s.image_files.length : Int) - 1 →
      (delete_current_image s true true).1.current_index = s.current_index ∧
      (delete_current_image s true true).1.image_files.getD s.current_index.toNat "" =
        s.image_files.getD (s.current_index.toNat + 1) "") := by
  have hlp : 0 < s.image_files.length := List.length_pos.mpr h
  have hguard : ¬ (s.current_index = -1 ∨ s.image_files = []) := by
    push_neg
    exact ⟨by omega, h⟩
  have htn : s.current_index.toNat < s.image_files.length := by omega
  have hlen : (s.image_files.eraseIdx s.current_index.toNat).length =
      s.image_files.length - 1 := List.length_eraseIdx_of_lt htn
  have hfst : (delete_current_image s true true).1 =
      { s with
        image_files := s.image_files.eraseIdx s.current_index.toNat,
        current_index :=
          if ((s.image_files.eraseIdx s.current_index.toNat).length : Int) ≤
                s.current_index ∧
              s.image_files.eraseIdx s.current_index.toNat ≠ [] then
            s.current_index - 1
          else s.current_index } := by
    simp only [delete_current_image, hguard, if_false, not_true,
      Bool.not_eq_true, ite_false, reduceIte]
  rw [hfst]
  dsimp only
  refine ⟨rfl, ?_, ?_, ?_⟩
  · rw [← List.length_eq_zero, hlen]
    omega
  · rintro ⟨hlast, hgt1⟩
    rw [if_pos]
    constructor
    · omega
    · intro hnil
      have h2 : (s.image_files.eraseIdx s.current_index.toNat).length = 0 := by
        rw [hnil]; rfl
      omega
  · intro hmid
    have hb1 : s.current_index.toNat <
        (s.image_files.eraseIdx s.current_index.toNat).length := by omega
    have hb2 : s.current_index.toNat + 1 < s.image_files.length := by omega
    refine ⟨?_, ?_⟩
    · rw [if_neg]
      intro hab
      omega
    · rw [List.getD_eq_getElem _ _ hb1, List.getD_eq_getElem _ _ hb2]
      exact List.getElem_eraseIdx_of_ge s.image_files s.current_index.toNat
        s.current_index.toNat hb1 (le_refl _)

/-- helper: unfolding of `add_to_favorites` once past its guard. -/
theorem add_to_favorites_eq (g : FS) (s : AppState)
    (hguard : ¬ (s.current_index = -1 ∨ s.image_files = [])) :
    add_to_favorites g s =
      if is_favorited g s.folder_path (s.image_files.getD s.current_index.toNat "") then
        (fun q => if q = path_join (path_join s.folder_path "favorites")
            (s.image_files.getD s.current_index.toNat "") then false else g q,
         [Eff.removeFile (path_join (path_join s.folder_path "favorites")
            (s.image_files.getD s.current_index.toNat "")), Eff.printLog])
      else
        (fun q => if q = path_join (path_join s.folder_path "favorites")
            (s.image_files.getD s.current_index.toNat "") then true else g q,
         [Eff.makeDirs (path_join s.folder_path "favorites"),
          Eff.copyFile
            (path_join s.folder_path (s.image_files.getD s.current_index.toNat ""))
            (path_join (path_join s.folder_path "favorites")
              (s.image_files.getD s.current_index.toNat "")),
          Eff.printLog]) := by
  dsimp only [add_to_favorites]
  rw [if_neg hguard]

/-- helper: predicate picking out copy effects. -/
def isCopyEff : Eff → Bool
  | Eff.copyFile _ _ => true
  | _ => false

/-- helper: predicate picking out file-remove effects. -/
def isRemoveEff : Eff → Bool
  | Eff.removeFile _ => true
  | _ => false

@[simp] theorem isCopyEff_removeFile (p : String) :
    isCopyEff (Eff.removeFile p) = false := rfl

@[simp] theorem isCopyEff_copyFile (a b : String) :
    isCopyEff (Eff.copyFile a b) = true := rfl

@[simp] theorem isCopyEff_printLog : isCopyEff Eff.printLog = false := rfl

@[simp] theorem isCopyEff_makeDirs (p : String) :
    isCopyEff (Eff.makeDirs p) = false := rfl

@[simp] theorem isRemoveEff_removeFile (p : String) :
    isRemoveEff (Eff.removeFile p) = true := rfl

@[simp] theorem isRemoveEff_copyFile (a b : String) :
    isRemoveEff (Eff.copyFile a b) = false := rfl

@[simp] theorem isRemoveEff_printLog : isRemoveEff Eff.printLog = false := rfl

@[simp] theorem isRemoveEff_makeDirs (p : String) :
    isRemoveEff (Eff.makeDirs p) = false := rfl

/-- C5: `is_favorited` is true iff the mirror file
`folder/favorites/name` exists, and toggling `add_to_favorites` twice on
the same entry (with no external filesystem change in between) returns
`is_favorited` to its original value while performing exactly one copy
and one delete. -/
theorem c5_favorite_toggle_round_trip (fs : FS) (s : AppState) (dir entry : String)
    (hidx : s.current_index ≠ -1) (hne : s.image_files ≠ []) :
    (is_favorited fs dir entry = fs (dir ++ "/favorites/" ++ entry)) ∧
    (is_favorited (add_to_favorites (add_to_favorites fs s).1 s).1 s.folder_path
        (s.image_files.getD s.current_index.toNat "") =
      is_favorited fs s.folder_path (s.image_files.getD s.current_index.toNat "")) ∧
    ((add_to_favorites fs s).2 ++
        (add_to_favorites (add_to_favorites fs s).1 s).2).countP isCopyEff = 1 ∧
    ((add_to_favorites fs s).2 ++
        (add_to_favorites (add_to_favorites fs s).1 s).2).countP isRemoveEff = 1 := by
  have hguard : ¬ (s.current_index = -1 ∨ s.image_files = []) := by
    push_neg
    exact ⟨hidx, hne⟩
  have hlit : "/" ++ ("favorites" ++ "/") = "/favorites/" := by decide
  have hpath : path_join (path_join dir "favorites") entry =
      dir ++ "/favorites/" ++ entry := by
    unfold path_join
    rw [String.append_assoc (dir ++ "/") "favorites" "/",
      String.append_assoc dir "/" ("favorites" ++ "/"), hlit]
  refine ⟨by unfold is_favorited; rw [hpath], ?_⟩
  cases hfav : is_favorited fs s.folder_path
      (s.image_files.getD s.current_index.toNat "") with
  | true =>
    rw [add_to_favorites_eq fs s hguard, if_pos hfav]
    dsimp only
    rw [add_to_favorites_eq _ s hguard, if_neg (by simp [is_favorited])]
    dsimp only
    refine ⟨by simp [is_favorited], ?_, ?_⟩
    · simp [List.countP_append, List.countP_cons, List.countP_nil]
    · simp [List.countP_append, List.countP_cons, List.countP_nil]
  | false =>
    rw [add_to_favorites_eq fs s hguard, if_neg (by rw [hfav]; exact Bool.false_ne_true)]
    dsimp only
    rw [add_to_favorites_eq _ s hguard, if_pos (by simp [is_favorited])]
    dsimp only
    refine ⟨by simp [is_favorited, hfav], ?_, ?_⟩
    · simp [List.countP_append, List.countP_cons, List.countP_nil]
    · simp [List.countP_append, List.countP_cons, List.countP_nil]

/-- helper: predicate picking out `saveLastFolder` effects. -/
def isSaveEff : Eff → Bool
  | Eff.saveLastFolder _ => true
  | _ => false

/-- C6 counterexample: when the directory listing raises
`FileNotFoundError`, `load_images_from_path` has already overwritten
`self.folder_path` with the failing path (line 190 runs before the
`try`), so the active folder path is NOT left unchanged. -/
theorem c6_counterexample :
    (load_images_from_path (AppState.mk "/old" ["a.jpg"] 0) "/missing" none).1.folder_path ≠
      (AppState.mk "/old" ["a.jpg"] 0).folder_path ∧
    (load_images_from_path (AppState.mk "/old" ["a.jpg"] 0) "/missing" none).1.folder_path =
      "/missing" := by
  decide

/-- C6 amended: a load that fails with `FileNotFoundError` reports an
error and leaves the entries list and the cursor unchanged, but
overwrites the active folder path with the attempted path. -/
theorem c6_failed_load_keeps_entries_and_cursor (s : AppState) (path : String) :
    (load_images_from_path s path none).1.image_files = s.image_files ∧
    (load_images_from_path s path none).1.current_index = s.current_index ∧
    (load_images_from_path s path none).1.folder_path = path ∧
    (load_images_from_path s path none).2 = [Eff.showError] :=
  ⟨rfl, rfl, rfl, rfl⟩

/-- C7 counterexample: loading an existing directory that contains no
matching files (a successful, non-error load) performs no
`saveLastFolder` effect at all — the persisted last-used directory is
not overwritten. -/
theorem c7_counterexample :
    scan ["readme.txt"] = [] ∧
    ((load_images_from_path (AppState.mk "/old" [] (-1)) "/photos"
        (some ["readme.txt"])).2.countP isSaveEff = 0) ∧
    (load_images_from_path (AppState.mk "/old" [] (-1)) "/photos"
        (some ["readme.txt"])).2 = [Eff.showInfoNoFiles, Eff.showMessage] := by
  decide

/-- C7 amended: a successful directory load persists the loaded path
(via `save_last_folder`) exactly when the scan finds at least one
matching file; an empty successful load performs no save. -/
theorem c7_save_iff_catalog_nonempty (s : AppState) (path : String) (L : List String) :
    Eff.saveLastFolder path ∈ (load_images_from_path s path (some L)).2 ↔
      scan L ≠ [] := by
  simp only [load_images_from_path]
  split
  · rename_i hL
    constructor
    · intro hmem
      simp at hmem
    · intro hne2
      exact absurd (List.isEmpty_iff.mp hL) hne2
  · rename_i hL
    constructor
    · intro _
      intro hnil
      exact hL (by simp [hnil])
    · intro _
      simp

/-- helper: the number of frames presented by the frame loop before it
exits: frames are shown until end of stream, a quit key, a closed
window, or an exception. -/
def displayedFrames : List FrameStep → Nat
  | [] => 0
  | FrameStep.readFail :: _ => 0
  | FrameStep.raises :: _ => 0
  | FrameStep.frame key visible :: rest =>
      if key % 256 = 113 ∨ visible = false then 1
      else 1 + displayedFrames rest

/-- helper: when no iteration of the frame loop raises, no exception
escapes the loop. -/
theorem runLoop_no_raise (frames : List FrameStep)
    (h : FrameStep.raises ∉ frames) : (runLoop frames).2 = false := by
  induction frames with
  | nil => rfl
  | cons a rest ih =>
    cases a with
    | readFail => rfl
    | raises => exact absurd (List.mem_cons_self _ _) h
    | frame key visible =>
      simp only [runLoop]
      split
      · rfl
      · exact ih (fun hm => h (List.mem_cons_of_mem _ hm))

/-- helper: the frame loop emits only `imshow` effects. -/
theorem mem_runLoop (frames : List FrameStep) (e : Eff)
    (h : e ∈ (runLoop frames).1) : e = Eff.imshow := by
  induction frames with
  | nil => cases h
  | cons a rest ih =>
    cases a with
    | readFail => cases h
    | raises => cases h
    | frame key visible =>
      simp only [runLoop] at h
      split at h
      · rcases List.mem_singleton.mp h with rfl
        rfl
      · rcases List.mem_cons.mp h with rfl | hm
        · rfl
        · exact ih hm

/-- helper: the frame loop presents exactly `displayedFrames` frames. -/
theorem count_imshow_runLoop (frames : List FrameStep) :
    (runLoop frames).1.count Eff.imshow = displayedFrames frames := by
  induction frames with
  | nil => rfl
  | cons a rest ih =>
    cases a with
    | readFail => rfl
    | raises => rfl
    | frame key visible =>
      by_cases hc : key % 256 = 113 ∨ visible = false
      · simp only [runLoop, displayedFrames, if_pos hc]
        rfl
      · simp [runLoop, displayedFrames, if_neg hc, List.count_cons, ih]
        omega

/-- helper: `musicPlay` occurs in the audio-setup effects exactly when
`has_audio` was computed true. -/
theorem musicPlay_mem_audioPhase (a : AudioOutcome) :
    Eff.musicPlay ∈ audioPhase a ↔ hasAudio a = true := by
  cases a with
  | initRaises => simp [audioPhase, hasAudio]
  | extractRaises => simp [audioPhase, hasAudio]
  | extracted rc ex size =>
    simp only [audioPhase]
    split
    · rename_i hha
      simp [hha]
    · rename_i hha
      simp only [Bool.not_eq_true] at hha
      simp [hha]

/-- helper: the audio-setup effects contain no `imshow`. -/
theorem count_imshow_audioPhase (a : AudioOutcome) :
    (audioPhase a).count Eff.imshow = 0 := by
  cases a with
  | initRaises => rfl
  | extractRaises => rfl
  | extracted rc ex size =>
    simp only [audioPhase]
    split <;> rfl

/-- the condition of claim C9 under which audio is supposed to start:
the external transcoder exited zero and produced a non-empty artifact. -/
def extraction_succeeded : AudioOutcome → Prop
  | AudioOutcome.extracted rc ex size => rc = 0 ∧ ex = true ∧ 0 < size
  | _ => False

instance (a : AudioOutcome) : Decidable (extraction_succeeded a) := by
  unfold extraction_succeeded
  cases a <;> infer_instance

/-- helper: `has_audio` as computed on line 432 agrees with the claim's
extraction-success condition. -/
theorem hasAudio_iff_extraction_succeeded (a : AudioOutcome) :
    hasAudio a = true ↔ extraction_succeeded a := by
  cases a with
  | initRaises => simp [hasAudio, extraction_succeeded]
  | extractRaises => simp [hasAudio, extraction_succeeded]
  | extracted rc ex size =>
    simp only [hasAudio, extraction_succeeded, Bool.and_eq_true, beq_iff_eq,
      ne_eq, bne_iff_ne]
    constructor
    · rintro ⟨⟨h1, h2⟩, h3⟩
      exact ⟨h1, h2, Nat.pos_of_ne_zero h3⟩
    · rintro ⟨h1, h2, h3⟩
      exact ⟨⟨h1, h2⟩, by omega⟩

/-- C8 counterexample: an exception raised inside the frame loop jumps
to the outer `except` handler (line 470), so the straight-line cleanup of
lines 454-468 is skipped entirely: the decoder is not released, the
viewer stays open, the started audio is not stopped and the temporary
audio file is not deleted. -/
theorem c8_counterexample :
    Eff.musicPlay ∈ play_video_session
      (PlayEnv.mk (AudioOutcome.extracted 0 true 5) true
        [FrameStep.frame 0 true, FrameStep.raises]) ∧
    tempCreated (AudioOutcome.extracted 0 true 5) = true ∧
    Eff.msgboxPlaybackError ∈ play_video_session
      (PlayEnv.mk (AudioOutcome.extracted 0 true 5) true
        [FrameStep.frame 0 true, FrameStep.raises]) ∧
    Eff.capRelease ∉ play_video_session
      (PlayEnv.mk (AudioOutcome.extracted 0 true 5) true
        [FrameStep.frame 0 true, FrameStep.raises]) ∧
    Eff.destroyWindow ∉ play_video_session
      (PlayEnv.mk (AudioOutcome.extracted 0 true 5) true
        [FrameStep.frame 0 true, FrameStep.raises]) ∧
    Eff.musicStop ∉ play_video_session
      (PlayEnv.mk (AudioOutcome.extracted 0 true 5) true
        [FrameStep.frame 0 true, FrameStep.raises]) ∧
    Eff.unlinkTemp ∉ play_video_session
      (PlayEnv.mk (AudioOutcome.extracted 0 true 5) true
        [FrameStep.frame 0 true, FrameStep.raises]) := by
  decide

/-- C8 amended: on the exception-free exit paths (end of stream, quit
key, viewer closure) the teardown of lines 454-468 always runs before
control returns: the decoder is released, the viewer window is closed,
audio is stopped when it was started, and the temporary audio artifact is
deleted when one was created (and still exists); but an exception inside
the frame loop skips all of this, reaching only the error dialog. -/
theorem c8_teardown_on_normal_exit_only (env : PlayEnv)
    (hnr : FrameStep.raises ∉ env.frames)
    (hex : env.tempExistsAtCleanup = true) :
    Eff.capRelease ∈ play_video_session env ∧
    Eff.destroyWindow ∈ play_video_session env ∧
    (hasAudio env.audioOutcome = true →
      Eff.musicStop ∈ play_video_session env ∧
      Eff.mixerQuit ∈ play_video_session env) ∧
    (tempCreated env.audioOutcome = true →
      Eff.unlinkTemp ∈ play_video_session env) := by
  have hl := runLoop_no_raise env.frames hnr
  simp only [play_video_session, hl, Bool.false_eq_true, if_false]
  refine ⟨?_, ?_, ?_, ?_⟩
  · simp
  · simp
  · intro hha
    simp [hha]
  · intro htc
    simp [htc, hex]

/-- helper: `musicPlay` occurs in a session's effects exactly when it
occurs in the audio-setup effects (the loop and teardown never emit it). -/
theorem musicPlay_mem_session (env : PlayEnv) :
    Eff.musicPlay ∈ play_video_session env ↔
      Eff.musicPlay ∈ audioPhase env.audioOutcome := by
  have hno : Eff.musicPlay ∉ (runLoop env.frames).1 := by
    intro hm
    exact absurd (mem_runLoop env.frames _ hm) (by simp)
  by_cases h1 : (runLoop env.frames).2 = true
  · simp [play_video_session, h1, List.mem_append, hno]
  · by_cases h2 : hasAudio env.audioOutcome = true
    · by_cases h3 : (tempCreated env.audioOutcome && env.tempExistsAtCleanup) = true
      · simp [play_video_session, h1, h2, h3, List.mem_append, hno]
      · simp [play_video_session, h1, h2, h3, List.mem_append, hno]
    · by_cases h3 : (tempCreated env.audioOutcome && env.tempExistsAtCleanup) = true
      · simp [play_video_session, h1, h2, h3, List.mem_append, hno]
      · simp [play_video_session, h1, h2, h3, List.mem_append, hno]

/-- C9: failure of the audio extraction (the mixer or transcoder
raising, a non-zero exit code, a missing or empty artifact) never aborts
the playback session: audio is started (`pygame.mixer.music.play`)
exactly when extraction exited zero and produced a non-empty file, and
the frame loop presents the same frames regardless of the audio
outcome. -/
theorem c9_audio_failure_is_nonfatal (env : PlayEnv) :
    (Eff.musicPlay ∈ play_video_session env ↔
      extraction_succeeded env.audioOutcome) ∧
    (play_video_session env).count Eff.imshow = displayedFrames env.frames := by
  constructor
  · rw [musicPlay_mem_session, musicPlay_mem_audioPhase,
      hasAudio_iff_extraction_succeeded]
  · by_cases h1 : (runLoop env.frames).2 = true
    · simp [play_video_session, h1, List.count_append, count_imshow_audioPhase,
        count_imshow_runLoop, List.count_cons, List.count_nil]
    · by_cases h2 : hasAudio env.audioOutcome = true
      · by_cases h3 : (tempCreated env.audioOutcome && env.tempExistsAtCleanup) = true
        · simp [play_video_session, h1, h2, h3, List.count_append,
            count_imshow_audioPhase, count_imshow_runLoop, List.count_cons,
            List.count_nil]
        · simp [play_video_session, h1, h2, h3, List.count_append,
            count_imshow_audioPhase, count_imshow_runLoop, List.count_cons,
            List.count_nil]
      · by_cases h3 : (tempCreated env.audioOutcome && env.tempExistsAtCleanup) = true
        · simp [play_video_session, h1, h2, h3, List.count_append,
            count_imshow_audioPhase, count_imshow_runLoop, List.count_cons,
            List.count_nil]
        · simp [play_video_session, h1, h2, h3, List.count_append,
            count_imshow_audioPhase, count_imshow_runLoop, List.count_cons,
            List.count_nil]

/-- C10: with no entries loaded (or all deleted), every public operation
is total and harmless: `show_next_image` and `show_prev_image` leave the
state unchanged; `delete_current_image` and `add_to_favorites` stop at
their guard with only a warning dialog — no filesystem effect and no
state or filesystem mutation — for every dialog answer and I/O outcome;
and `play_video` returns with no effect at all.  None of them reaches
any indexing of the entries list. -/
theorem c10_empty_state_is_harmless (s : AppState)
    (is_sure remove_ok capOpened : Bool) (fs : FS) (env : PlayEnv)
    (h : s.image_files = []) :
    show_next_image s = s ∧
    show_prev_image s = s ∧
    delete_current_image s is_sure remove_ok = (s, [Eff.warnNoFile]) ∧
    add_to_favorites fs s = (fs, [Eff.warnNoFile]) ∧
    play_video s capOpened env = [] := by
  have hg : s.current_index = -1 ∨ s.image_files = [] := Or.inr h
  refine ⟨?_, ?_, ?_, ?_, ?_⟩
  · unfold show_next_image
    rw [if_neg]
    intro hab
    exact hab.1 h
  · unfold show_prev_image
    rw [if_neg]
    intro hab
    exact hab.1 h
  · unfold delete_current_image
    rw [if_pos hg]
  · unfold add_to_favorites
    rw [if_pos hg]
  · unfold play_video
    rw [if_pos hg]

/-- a sample positioned state: three entries, cursor on the middle one. -/
def sampleState3 : AppState := AppState.mk "/pics" ["a.jpg", "b.mov", "c.png"] 1

/-- a sample filesystem with no files. -/
def sampleFS : FS := fun _ => false

/-- a sample playback environment: audio extracted successfully, one
frame shown, then end of stream. -/
def sampleEnv : PlayEnv :=
  PlayEnv.mk (AudioOutcome.extracted 0 true 5) true
    [FrameStep.frame 0 true, FrameStep.readFail]

/-- a sample empty state (nothing loaded). -/
def emptyState : AppState := AppState.mk "" [] (-1)

/-- Witness for C2 (amended): the preservation theorem applied to a
concrete valid state and concrete operation arguments. -/
theorem c2_witness :
    NavInv (load_images_from_path sampleState3 "/p" (some ["x.png"])).1 ∧
    NavInv (show_next_image sampleState3) ∧
    NavInv (show_prev_image sampleState3) ∧
    NavInv (delete_current_image sampleState3 true true).1 :=
  c2_nav_invariant_preserved sampleState3 "/p" (some ["x.png"]) true true (by decide)

/-- Witness for C3: the clamp and no-wraparound theorem applied to the
concrete three-entry state. -/
theorem c3_witness :
    (sampleState3.current_index < (sampleState3.image_files.length : Int) - 1 →
       (show_next_image sampleState3).current_index =
         sampleState3.current_index + 1) ∧
    (sampleState3.current_index = (sampleState3.image_files.length : Int) - 1 →
       show_next_image sampleState3 = sampleState3) ∧
    (0 < sampleState3.current_index →
       (show_prev_image sampleState3).current_index =
         sampleState3.current_index - 1) ∧
    (sampleState3.current_index = 0 → show_prev_image sampleState3 = sampleState3) ∧
    (show_next_image^[sampleState3.image_files.length]
        { sampleState3 with current_index := 0 }).current_index =
      (sampleState3.image_files.length : Int) - 1 :=
  c3_next_prev_clamp_no_wrap sampleState3 (by decide) (by decide) (by decide)

/-- Witness for C4: the delete-renormalization theorem applied to the
concrete three-entry state at cursor 1. -/
theorem c4_witness :
    (delete_current_image sampleState3 true true).1.image_files =
      sampleState3.image_files.eraseIdx sampleState3.current_index.toNat ∧
    ((delete_current_image sampleState3 true true).1.image_files = [] ↔
      sampleState3.image_files.length = 1) ∧
    (sampleState3.current_index = (sampleState3.image_files.length : Int) - 1 ∧
        1 < sampleState3.image_files.length →
      (delete_current_image sampleState3 true true).1.current_index =
        sampleState3.current_index - 1) ∧
    (sampleState3.current_index < (sampleState3.image_files.length : Int) - 1 →
      (delete_current_image sampleState3 true true).1.current_index =
        sampleState3.current_index ∧
      (delete_current_image sampleState3 true true).1.image_files.getD
          sampleState3.current_index.toNat "" =
        sampleState3.image_files.getD (sampleState3.current_index.toNat + 1) "") :=
  c4_delete_renormalizes sampleState3 (by decide) (by decide) (by decide)

/-- Witness for C5: the favorite toggle theorem applied to the concrete
state, an empty filesystem, and a concrete directory and entry. -/
theorem c5_witness :
    (is_favorited sampleFS "/pics" "b.mov" =
      sampleFS ("/pics" ++ "/favorites/" ++ "b.mov")) ∧
    (is_favorited (add_to_favorites (add_to_favorites sampleFS sampleState3).1
          sampleState3).1 sampleState3.folder_path
        (sampleState3.image_files.getD sampleState3.current_index.toNat "") =
      is_favorited sampleFS sampleState3.folder_path
        (sampleState3.image_files.getD sampleState3.current_index.toNat "")) ∧
    ((add_to_favorites sampleFS sampleState3).2 ++
        (add_to_favorites (add_to_favorites sampleFS sampleState3).1
          sampleState3).2).countP isCopyEff = 1 ∧
    ((add_to_favorites sampleFS sampleState3).2 ++
        (add_to_favorites (add_to_favorites sampleFS sampleState3).1
          sampleState3).2).countP isRemoveEff = 1 :=
  c5_favorite_toggle_round_trip sampleFS sampleState3 "/pics" "b.mov"
    (by decide) (by decide)

/-- Witness for C8 (amended): the teardown theorem applied to a concrete
exception-free session environment. -/
theorem c8_witness :
    Eff.capRelease ∈ play_video_session sampleEnv ∧
    Eff.destroyWindow ∈ play_video_session sampleEnv ∧
    (hasAudio sampleEnv.audioOutcome = true →
      Eff.musicStop ∈ play_video_session sampleEnv ∧
      Eff.mixerQuit ∈ play_video_session sampleEnv) ∧
    (tempCreated sampleEnv.audioOutcome = true →
      Eff.unlinkTemp ∈ play_video_session sampleEnv) :=
  c8_teardown_on_normal_exit_only sampleEnv (by decide) (by decide)

/-- Witness for C10: the empty-state theorem applied to the concrete
empty state and concrete operation arguments. -/
theorem c10_witness :
    show_next_image emptyState = emptyState ∧
    show_prev_image emptyState = emptyState ∧
    delete_current_image emptyState true true = (emptyState, [Eff.warnNoFile]) ∧
    add_to_favorites sampleFS emptyState = (sampleFS, [Eff.warnNoFile]) ∧
    play_video emptyState true sampleEnv = [] :=
  c10_empty_state_is_harmless emptyState true true true sampleFS sampleEnv (by decide)

end CameraRollCleaner
